import Mathlib

/-!
Verification of a minimal raw-mode terminal editor (src/main.go).

The embedding follows the Go source closely:
* `Editor` mirrors the `Editor` struct (terminal size and cursor, Go `int`
  modelled as `Int`).
* `readKey` mirrors the decoder over a 4-byte input buffer (bytes as `Nat`).
* `processKeyPress` mirrors the key dispatch; it returns the new state, the
  characters printed, and the `run` flag.
* `moveCursor` mirrors the clamped single-step cursor moves.
* `drawRows` / `refresh` mirror rendering; the Go slice `screen[:width]`
  panics when `width` exceeds the accumulated length, so both return
  `Option (List Char)`, with `none` standing for a runtime panic.
-/

/-- Editor state from main.go lines 10-14: terminal size and cursor position. -/
structure Editor where
  width : Int
  height : Int
  cx : Int
  cy : Int
deriving Repr, DecidableEq

/-- Key constant `ARW_LEFT` (main.go line 21, value 1000). -/
def ARW_LEFT : Int := 1000

/-- Key constant `ARW_UP` (value 1001). -/
def ARW_UP : Int := 1001

/-- Key constant `ARW_RIGHT` (value 1002). -/
def ARW_RIGHT : Int := 1002

/-- Key constant `ARW_DOWN` (value 1003). -/
def ARW_DOWN : Int := 1003

/-- Key constant `PG_UP` (value 1004). -/
def PG_UP : Int := 1004

/-- Key constant `PG_DOWN` (value 1005). -/
def PG_DOWN : Int := 1005

/-- `readKey` (main.go lines 95-133) on a 4-byte buffer `b0 b1 b2 b3`.
Byte values: 27 = ESC, 91 = the bracket, 48-57 = digits, 126 = tilde,
65-68 = A..D. The Go code returns `EdKey(b[0])` whenever no branch
returns first. -/
def readKey (b0 b1 b2 b3 : Nat) : Int :=
  if b0 = 27 then
    if b1 = 91 then
      if (48 ≤ b2 ∧ b2 ≤ 57) ∧ b3 = 126 ∧ b2 = 53 then PG_UP
      else if (48 ≤ b2 ∧ b2 ≤ 57) ∧ b3 = 126 ∧ b2 = 54 then PG_DOWN
      else if b2 = 65 then ARW_UP
      else if b2 = 66 then ARW_DOWN
      else if b2 = 67 then ARW_RIGHT
      else if b2 = 68 then ARW_LEFT
      else (b0 : Int)
    else (27 : Int)
  else (b0 : Int)

/-- `moveCursor` (main.go lines 187-210): clamped single-step cursor move. -/
def moveCursor (ed : Editor) (ch : Int) : Editor :=
  if ch = ARW_LEFT then
    if ed.cx = 0 then ed else { ed with cx := ed.cx - 1 }
  else if ch = ARW_RIGHT then
    if ed.cx = ed.width - 1 then ed else { ed with cx := ed.cx + 1 }
  else if ch = ARW_UP then
    if ed.cy = 0 then ed else { ed with cy := ed.cy - 1 }
  else if ch = ARW_DOWN then
    if ed.cy = ed.height - 1 then ed else { ed with cy := ed.cy + 1 }
  else ed

/-- The clear-screen escape sequence printed on quit (main.go line 66). -/
def clearScreenSeq : List Char := "\x1b[H\x1b[2J".data

/-- `processKeyPress` (main.go lines 55-92): decode the buffer, dispatch the
key, return the new state, the printed output, and the loop-continue flag.
17 is `0x1f AND q`, the CTRL+q quit code. The Go `for i := 0; i <= ed.height`
loops run `(height + 1)` times when `height ≥ 0`, never otherwise. -/
def processKeyPress (ed : Editor) (b0 b1 b2 b3 : Nat) :
    Editor × List Char × Bool :=
  let ch := readKey b0 b1 b2 b3
  if ch = 17 then (ed, clearScreenSeq, false)
  else if ch = ARW_UP ∨ ch = ARW_DOWN ∨ ch = ARW_RIGHT ∨ ch = ARW_LEFT then
    (moveCursor ed ch, [], true)
  else if ch = PG_UP then
    ((fun e => moveCursor e ARW_UP)^[(ed.height + 1).toNat] ed, [], true)
  else if ch = PG_DOWN then
    ((fun e => moveCursor e ARW_DOWN)^[(ed.height + 1).toNat] ed, [], true)
  else (ed, [], true)

/-- The welcome message (main.go line 160), 37 characters long. -/
def message : List Char := "Welcome to this stupid text editor :)".data

/-- The clear-to-end-of-line sequence appended after each row (line 179). -/
def escK : List Char := "\x1b[K".data

/-- The line break appended after every row except the last (line 181). -/
def crlf : List Char := "\r\n".data

/-- The banner composed on the message row (main.go lines 167-173): a tilde,
`padding` spaces, then the message; `padding = (width - 37) / 2` with Go
truncated division, and the Go `for i := 1; i <= padding` loop emits
`max padding 0` spaces. -/
def bannerLine (ed : Editor) : List Char :=
  ['~'] ++ List.replicate ((ed.width - (message.length : Int)).tdiv 2).toNat ' '
    ++ message

/-- What a row appends after its content (main.go lines 179-182): the
clear-line sequence, then a line break unless this is the last row. -/
def rowEnd (ed : Editor) (y : Nat) : List Char :=
  escK ++ (if (y : Int) < ed.height - 1 then crlf else [])

/-- One iteration of the `drawRows` loop body (main.go lines 157-183) acting
on the accumulated screen buffer. On the message row, if the message is
longer than the width the Go code slices `screen[:ed.width]`, which panics
(modelled as `none`) unless `0 ≤ width ≤ length of screen so far`. -/
def drawRowsStep (ed : Editor) (acc : Option (List Char)) (y : Nat) :
    Option (List Char) :=
  match acc with
  | none => none
  | some screen =>
    if (y : Int) = ed.height.tdiv 3 then
      if (message.length : Int) > ed.width then
        if 0 ≤ ed.width ∧ ed.width ≤ (screen.length : Int) then
          some (screen.take ed.width.toNat ++ bannerLine ed ++ rowEnd ed y)
        else none
      else some (screen ++ bannerLine ed ++ rowEnd ed y)
    else some (screen ++ ['~'] ++ rowEnd ed y)

/-- `drawRows` (main.go lines 154-185): fold the loop body over the row
indices `0, ..., height-1`, starting from the empty screen buffer. -/
def drawRows (ed : Editor) : Option (List Char) :=
  (List.range ed.height.toNat).foldl (drawRowsStep ed) (some [])

/-- `refresh` (main.go lines 135-149): hide cursor, home, draw the rows,
reposition the cursor to 1-indexed `(cy+1, cx+1)`, show cursor. `none`
propagates a panic inside `drawRows`. -/
def refresh (ed : Editor) : Option (List Char) :=
  (drawRows ed).map (fun screen =>
    "\x1b[?25l".data ++ "\x1b[H".data ++ screen
      ++ "\x1b[".data ++ (toString (ed.cy + 1)).data ++ ";".data
      ++ (toString (ed.cx + 1)).data ++ "H".data ++ "\x1b[?25h".data)

/-- The cursor-bounds invariant from the spec data model. -/
def InBounds (ed : Editor) : Prop :=
  0 ≤ ed.cx ∧ ed.cx < ed.width ∧ 0 ≤ ed.cy ∧ ed.cy < ed.height

/-- The frame described by the spec for a wide-enough viewport: one row per
index in `[0, height)`, the row at `height / 3` carrying the centered
banner, every other row a lone tilde, each followed by the clear-line
sequence and a line break except after the last row. -/
def specRow (ed : Editor) (y : Nat) : List Char :=
  (if (y : Int) = ed.height.tdiv 3 then bannerLine ed else ['~']) ++ rowEnd ed y

/-- The full frame described by the spec: hide cursor, home, the rows,
reposition to 1-indexed `(cy+1, cx+1)`, show cursor. -/
def specFrame (ed : Editor) : List Char :=
  "\x1b[?25l".data ++ "\x1b[H".data
    ++ ((List.range ed.height.toNat).map (specRow ed)).flatten
    ++ "\x1b[".data ++ (toString (ed.cy + 1)).data ++ ";".data
    ++ (toString (ed.cx + 1)).data ++ "H".data ++ "\x1b[?25h".data

theorem message_length : message.length = 37 := by decide

/-! ### Helper lemmas about `moveCursor` -/

theorem moveCursor_left (ed : Editor) :
    moveCursor ed ARW_LEFT =
      if ed.cx = 0 then ed else { ed with cx := ed.cx - 1 } := rfl

theorem moveCursor_right (ed : Editor) :
    moveCursor ed ARW_RIGHT =
      if ed.cx = ed.width - 1 then ed else { ed with cx := ed.cx + 1 } := rfl

theorem moveCursor_up (ed : Editor) :
    moveCursor ed ARW_UP =
      if ed.cy = 0 then ed else { ed with cy := ed.cy - 1 } := rfl

theorem moveCursor_down (ed : Editor) :
    moveCursor ed ARW_DOWN =
      if ed.cy = ed.height - 1 then ed else { ed with cy := ed.cy + 1 } := rfl

theorem moveCursor_inBounds (ed : Editor) (ch : Int) (h : InBounds ed) :
    InBounds (moveCursor ed ch) := by
  obtain ⟨w, ht, x, y⟩ := ed
  simp only [InBounds] at h ⊢
  simp only [moveCursor]
  split_ifs <;> simp_all <;> omega

theorem iterate_moveCursor_inBounds (ch : Int) :
    ∀ (n : Nat) (ed : Editor), InBounds ed →
      InBounds ((fun e => moveCursor e ch)^[n] ed) := by
  intro n
  induction n with
  | zero => intro ed h; simpa using h
  | succ n ih =>
    intro ed h
    rw [Function.iterate_succ_apply]
    exact ih _ (moveCursor_inBounds ed ch h)

theorem iterate_up_cy :
    ∀ (n : Nat) (ed : Editor), 0 ≤ ed.cy → ed.cy ≤ (n : Int) →
      ((fun e => moveCursor e ARW_UP)^[n] ed).cy = 0 := by
  intro n
  induction n with
  | zero => intro ed h0 h1; simpa using by omega
  | succ n ih =>
    intro ed h0 h1
    rw [Function.iterate_succ_apply, moveCursor_up]
    split_ifs with hc
    · exact ih ed (by omega) (by omega)
    · exact ih _ (by simp; omega) (by simp; omega)

theorem iterate_down_cy :
    ∀ (n : Nat) (ed : Editor), ed.cy ≤ ed.height - 1 →
      ed.height - 1 ≤ ed.cy + (n : Int) →
      ((fun e => moveCursor e ARW_DOWN)^[n] ed).cy = ed.height - 1 := by
  intro n
  induction n with
  | zero => intro ed h0 h1; simpa using by omega
  | succ n ih =>
    intro ed h0 h1
    rw [Function.iterate_succ_apply, moveCursor_down]
    split_ifs with hc
    · rw [ih ed h0 (by omega)]
    · have := ih { ed with cy := ed.cy + 1 } (by simp; omega) (by simp; omega)
      simpa using this

/-! ### Helper lemma for rendering without truncation -/

theorem drawRows_foldl_eq (ed : Editor)
    (hw : (message.length : Int) ≤ ed.width) :
    ∀ (n : Nat) (acc : List Char),
      (List.range n).foldl (drawRowsStep ed) (some acc)
        = some (acc ++ ((List.range n).map (specRow ed)).flatten) := by
  intro n
  induction n with
  | zero => intro acc; simp
  | succ n ih =>
    intro acc
    rw [List.range_succ, List.foldl_append, ih]
    simp only [List.foldl_cons, List.foldl_nil, List.map_append, List.map_cons,
      List.map_nil, List.flatten_append, List.flatten_cons, List.flatten_nil]
    simp only [drawRowsStep, specRow]
    split_ifs <;> first | omega | simp [List.append_assoc]


/-! ### Claim theorems -/

/-- C1: for every viewport with `width ≥ 1`, `height ≥ 1` and every starting
cursor with `0 ≤ cx < width` and `0 ≤ cy < height`, processing any key event
(arrow, page, printable, ignored — any 4-byte buffer) leaves the cursor in
bounds: never `cx < 0`, `cx ≥ width`, `cy < 0`, or `cy ≥ height`. -/
theorem C1_cursor_in_bounds (ed : Editor) (b0 b1 b2 b3 : Nat)
    (hw : 1 ≤ ed.width) (hh : 1 ≤ ed.height) (hin : InBounds ed) :
    InBounds (processKeyPress ed b0 b1 b2 b3).1 := by
  simp only [processKeyPress]
  split_ifs
  · exact hin
  · exact moveCursor_inBounds ed _ hin
  · exact iterate_moveCursor_inBounds ARW_UP _ ed hin
  · exact iterate_moveCursor_inBounds ARW_DOWN _ ed hin
  · exact hin

/-- Witness for C1 at a concrete in-bounds state and the arrow-down buffer. -/
theorem C1_cursor_in_bounds_witness :
    (1 : Int) ≤ (Editor.mk 5 5 2 2).width ∧ (1 : Int) ≤ (Editor.mk 5 5 2 2).height ∧
    InBounds (Editor.mk 5 5 2 2) ∧
    InBounds (processKeyPress (Editor.mk 5 5 2 2) 27 91 66 0).1 :=
  ⟨by decide, by decide, ⟨by decide, by decide, by decide, by decide⟩,
    C1_cursor_in_bounds (Editor.mk 5 5 2 2) 27 91 66 0 (by decide) (by decide)
      ⟨by decide, by decide, by decide, by decide⟩⟩

/-- C2: on a viewport narrower than the welcome message, the row-drawing step
at the banner row (row index `height / 3`) keeps only the first `width`
characters of the entire accumulated line so far — not just the message —
and then composes the banner (tilde, padding, full message) after it. -/
theorem C2_truncation_quirk (ed : Editor) (screen : List Char) (y : Nat)
    (hy : (y : Int) = ed.height.tdiv 3)
    (hmsg : (message.length : Int) > ed.width)
    (hw0 : 0 ≤ ed.width) (hlen : ed.width ≤ (screen.length : Int)) :
    drawRowsStep ed (some screen) y =
      some (screen.take ed.width.toNat ++ bannerLine ed ++ rowEnd ed y) := by
  simp only [drawRowsStep]
  rw [if_pos hy, if_pos hmsg, if_pos ⟨hw0, hlen⟩]

/-- Witness for C2: width 10, height 9, banner row 3, an 18-character
accumulated buffer (what three tilde rows produce). -/
theorem C2_truncation_quirk_witness :
    ((3 : Nat) : Int) = (Editor.mk 10 9 0 0).height.tdiv 3 ∧
    ((message.length : Nat) : Int) > (Editor.mk 10 9 0 0).width ∧
    (0 : Int) ≤ (Editor.mk 10 9 0 0).width ∧
    (Editor.mk 10 9 0 0).width ≤ ((List.replicate 18 'x').length : Int) ∧
    drawRowsStep (Editor.mk 10 9 0 0) (some (List.replicate 18 'x')) 3 =
      some ((List.replicate 18 'x').take (Editor.mk 10 9 0 0).width.toNat
        ++ bannerLine (Editor.mk 10 9 0 0) ++ rowEnd (Editor.mk 10 9 0 0) 3) :=
  ⟨by decide, by decide, by decide, by decide,
    C2_truncation_quirk (Editor.mk 10 9 0 0) (List.replicate 18 'x') 3
      (by decide) (by decide) (by decide) (by decide)⟩

/-- C3: on the viewport with width 10 and height 3 — width at least 1,
smaller than the 37-character message, and larger than the accumulated
6-characters-per-row buffer at the banner row `height / 3` — the slice
`screen[:width]` is out of bounds and `drawRows` panics (`none`) instead of
rendering a frame. -/
theorem C3_drawRows_panic :
    (1 : Int) ≤ 10 ∧ (10 : Int) < 37 ∧ 6 * ((3 : Int).tdiv 3) < 10 ∧
    drawRows (Editor.mk 10 3 0 0) = none := by decide

/-- C4: a 4-byte buffer beginning ESC `[` decodes third byte A/B/C/D to
ArrowUp/ArrowDown/ArrowRight/ArrowLeft (whatever the fourth byte), and
third-fourth bytes `5~` to PageUp and `6~` to PageDown. -/
theorem C4_escape_decoding (b3 : Nat) :
    readKey 27 91 65 b3 = ARW_UP ∧ readKey 27 91 66 b3 = ARW_DOWN ∧
    readKey 27 91 67 b3 = ARW_RIGHT ∧ readKey 27 91 68 b3 = ARW_LEFT ∧
    readKey 27 91 53 126 = PG_UP ∧ readKey 27 91 54 126 = PG_DOWN := by
  refine ⟨?_, ?_, ?_, ?_, by decide, by decide⟩ <;>
    simp [readKey]

/-- C5: the PageUp buffer applies the clamped ArrowUp move exactly
`height + 1` times and the PageDown buffer the clamped ArrowDown move
`height + 1` times; PageUp sends any in-bounds cursor to row 0, and
PageDown from row 0 lands on row `height - 1`. -/
theorem C5_page_moves (ed : Editor)
    (hh : 1 ≤ ed.height) (hy0 : 0 ≤ ed.cy) (hy1 : ed.cy < ed.height) :
    (processKeyPress ed 27 91 53 126).1
        = (fun e => moveCursor e ARW_UP)^[(ed.height + 1).toNat] ed ∧
    (processKeyPress ed 27 91 54 126).1
        = (fun e => moveCursor e ARW_DOWN)^[(ed.height + 1).toNat] ed ∧
    (processKeyPress ed 27 91 53 126).1.cy = 0 ∧
    (ed.cy = 0 → (processKeyPress ed 27 91 54 126).1.cy = ed.height - 1) := by
  refine ⟨rfl, rfl, ?_, ?_⟩
  · exact iterate_up_cy _ ed hy0 (by omega)
  · intro h0
    exact iterate_down_cy _ ed (by omega) (by omega)

/-- Witness for C5 at the concrete state width 4, height 3, cursor (1, 0). -/
theorem C5_page_moves_witness :
    (1 : Int) ≤ (Editor.mk 4 3 1 0).height ∧ (0 : Int) ≤ (Editor.mk 4 3 1 0).cy ∧
    (Editor.mk 4 3 1 0).cy < (Editor.mk 4 3 1 0).height ∧
    ((processKeyPress (Editor.mk 4 3 1 0) 27 91 53 126).1
        = (fun e => moveCursor e ARW_UP)^[((Editor.mk 4 3 1 0).height + 1).toNat]
            (Editor.mk 4 3 1 0) ∧
     (processKeyPress (Editor.mk 4 3 1 0) 27 91 54 126).1
        = (fun e => moveCursor e ARW_DOWN)^[((Editor.mk 4 3 1 0).height + 1).toNat]
            (Editor.mk 4 3 1 0) ∧
     (processKeyPress (Editor.mk 4 3 1 0) 27 91 53 126).1.cy = 0 ∧
     ((Editor.mk 4 3 1 0).cy = 0 →
       (processKeyPress (Editor.mk 4 3 1 0) 27 91 54 126).1.cy
         = (Editor.mk 4 3 1 0).height - 1)) :=
  ⟨by decide, by decide, by decide,
    C5_page_moves (Editor.mk 4 3 1 0) (by decide) (by decide) (by decide)⟩

/-- C6: any buffer whose first byte is 17 (`0x1F AND q`) makes the
key-processing step emit the clear-screen sequence `ESC [H ESC [2J`, signal
loop termination (`false`), and leave the editor state unchanged, whatever
the remaining bytes are. -/
theorem C6_quit (ed : Editor) (b1 b2 b3 : Nat) :
    processKeyPress ed 17 b1 b2 b3 = (ed, clearScreenSeq, false) := rfl

/-- C7: a 4-byte buffer whose first byte is ESC and whose second byte is not
`[` decodes to the literal escape value 27, whatever the last two bytes. -/
theorem C7_bare_escape (b1 b2 b3 : Nat) (h : b1 ≠ 91) :
    readKey 27 b1 b2 b3 = 27 := by
  simp [readKey, h]

/-- Witness for C7 with a zero second byte. -/
theorem C7_bare_escape_witness : (0 : Nat) ≠ 91 ∧ readKey 27 0 0 0 = 27 :=
  ⟨by decide, C7_bare_escape 0 0 0 (by decide)⟩

/-- C8: a buffer beginning ESC `[` whose remainder is not a recognized
sequence (third byte outside A-D and not `5`/`6` followed by `~`) decodes
without crashing to the value 27, which the caller treats as an ignored
control character: no output, loop continues, state unchanged. -/
theorem C8_unrecognized (ed : Editor) (b2 b3 : Nat)
    (h1 : b2 ≠ 65) (h2 : b2 ≠ 66) (h3 : b2 ≠ 67) (h4 : b2 ≠ 68)
    (h5 : ¬((b2 = 53 ∨ b2 = 54) ∧ b3 = 126)) :
    readKey 27 91 b2 b3 = 27 ∧ processKeyPress ed 27 91 b2 b3 = (ed, [], true) := by
  have hk : readKey 27 91 b2 b3 = 27 := by
    have c1 : ¬((48 ≤ b2 ∧ b2 ≤ 57) ∧ b3 = 126 ∧ b2 = 53) := by tauto
    have c2 : ¬((48 ≤ b2 ∧ b2 ≤ 57) ∧ b3 = 126 ∧ b2 = 54) := by tauto
    simp [readKey, c1, c2, h1, h2, h3, h4]
  refine ⟨hk, ?_⟩
  simp only [processKeyPress, hk]
  norm_num [ARW_UP, ARW_DOWN, ARW_RIGHT, ARW_LEFT, PG_UP, PG_DOWN]

/-- Witness for C8 on the unrecognized sequence ESC `[` `7` `~`. -/
theorem C8_unrecognized_witness :
    (55 : Nat) ≠ 65 ∧ (55 : Nat) ≠ 66 ∧ (55 : Nat) ≠ 67 ∧ (55 : Nat) ≠ 68 ∧
    ¬(((55 : Nat) = 53 ∨ (55 : Nat) = 54) ∧ (126 : Nat) = 126) ∧
    readKey 27 91 55 126 = 27 ∧
    processKeyPress (Editor.mk 5 5 2 2) 27 91 55 126 = (Editor.mk 5 5 2 2, [], true) :=
  ⟨by decide, by decide, by decide, by decide, by decide,
    C8_unrecognized (Editor.mk 5 5 2 2) 55 126 (by decide) (by decide)
      (by decide) (by decide) (by decide)⟩

/-- C9: from any interior position (cursor in bounds, not on the relevant
edge), ArrowLeft then ArrowRight restores the cursor, and ArrowRight then
ArrowLeft restores it; at column 0 ArrowLeft is a no-op and at column
`width - 1` ArrowRight is a no-op. -/
theorem C9_left_right_inverse (ed : Editor) :
    (0 < ed.cx → ed.cx < ed.width →
      moveCursor (moveCursor ed ARW_LEFT) ARW_RIGHT = ed) ∧
    (0 ≤ ed.cx → ed.cx < ed.width - 1 →
      moveCursor (moveCursor ed ARW_RIGHT) ARW_LEFT = ed) ∧
    (ed.cx = 0 → moveCursor ed ARW_LEFT = ed) ∧
    (ed.cx = ed.width - 1 → moveCursor ed ARW_RIGHT = ed) := by
  obtain ⟨w, h, x, y⟩ := ed
  refine ⟨?_, ?_, ?_, ?_⟩ <;> intro hx <;>
    simp_all [moveCursor, ARW_LEFT, ARW_RIGHT, ARW_UP, ARW_DOWN] <;>
    intro hx2 <;> split_ifs <;> simp_all <;> omega

/-- Witness for C9 at width 5 with cursor columns 2, 2, 0 and 4. -/
theorem C9_left_right_inverse_witness :
    moveCursor (moveCursor (Editor.mk 5 5 2 2) ARW_LEFT) ARW_RIGHT = Editor.mk 5 5 2 2 ∧
    moveCursor (moveCursor (Editor.mk 5 5 2 2) ARW_RIGHT) ARW_LEFT = Editor.mk 5 5 2 2 ∧
    moveCursor (Editor.mk 5 5 0 2) ARW_LEFT = Editor.mk 5 5 0 2 ∧
    moveCursor (Editor.mk 5 5 4 2) ARW_RIGHT = Editor.mk 5 5 4 2 :=
  ⟨(C9_left_right_inverse (Editor.mk 5 5 2 2)).1 (by decide) (by decide),
   (C9_left_right_inverse (Editor.mk 5 5 2 2)).2.1 (by decide) (by decide),
   (C9_left_right_inverse (Editor.mk 5 5 0 2)).2.2.1 (by decide),
   (C9_left_right_inverse (Editor.mk 5 5 4 2)).2.2.2 (by decide)⟩

/-- C10: whenever the width is at least the message length, one `refresh`
emits exactly the frame the spec describes: hide cursor, home, `height` rows
(the row at index `height / 3` carrying the centered banner, every other row
a lone tilde) each followed by the clear-line sequence with a line break
after every row except the last, the 1-indexed cursor reposition to
`(cy + 1, cx + 1)`, and show cursor. -/
theorem C10_render_frame (ed : Editor)
    (hw : (message.length : Int) ≤ ed.width) :
    refresh ed = some (specFrame ed) := by
  unfold refresh drawRows specFrame
  rw [drawRows_foldl_eq ed hw]
  simp

/-- Witness for C10 at width 40, height 3, cursor (1, 2). -/
theorem C10_render_frame_witness :
    ((message.length : Nat) : Int) ≤ (Editor.mk 40 3 1 2).width ∧
    refresh (Editor.mk 40 3 1 2) = some (specFrame (Editor.mk 40 3 1 2)) :=
  ⟨by decide, C10_render_frame (Editor.mk 40 3 1 2) (by decide)⟩
